import Mathlib

/-!
# Verification of the FitGear dashboard response-normalization core

Shallow embedding of the response normalization and state-merge engine of
`src/app/page.tsx`:

* `tryParseJSON`            (source lines 100-120)  — the Tolerant Decoder
* `parseAgentResponse`      (source lines 122-182)  — the Envelope Resolver
* `extractMessageFromResult`(source lines 184-195)  — the Message Extractor
* the snapshot merge performed inside `sendChat`   (source lines 461-470)
* the state transitions of `fetchDashboard` (399-433) and `sendChat` (445-486)

JavaScript runtime values are modelled by the inductive type `JSValue`
(numbers as `Int`: fractional values play no role in any claim; `undefined`
is a distinct constructor so that absent fields are representable).
`JSON.parse` is a platform primitive, not repository code, so it is taken
as a parameter `p : JsonParse` (a strict parser: `some` on success, `none`
on a parse error); `JSON.stringify` likewise appears as a `stringify`
parameter of the message extractor.  All repository logic is translated
concretely and executably.
-/

/-- A JavaScript runtime value, as far as the dashboard core observes it.
`vnum` carries an `Int`; `undefined` is JavaScript `undefined`, `vnull` is
JavaScript `null`. Objects are association lists of string keys. -/
inductive JSValue where
  | vnull : JSValue
  | undefined : JSValue
  | vbool : Bool → JSValue
  | vnum : Int → JSValue
  | vstr : String → JSValue
  | arr : List JSValue → JSValue
  | obj : List (String × JSValue) → JSValue
deriving Repr

/-- JavaScript truthiness: `null`, `undefined`, `false`, `0`, and `""` are
falsy; every array and object (including empty ones) is truthy. -/
def truthy : JSValue → Bool
  | .vnull => false
  | .undefined => false
  | .vbool b => b
  | .vnum n => n != 0
  | .vstr s => s != ""
  | .arr _ => true
  | .obj _ => true

/-- `typeof v === 'object'` — true for objects, arrays and `null`. -/
def isObjectType : JSValue → Bool
  | .vnull => true
  | .arr _ => true
  | .obj _ => true
  | _ => false

/-- `typeof v === 'string'`. -/
def isStr : JSValue → Bool
  | .vstr _ => true
  | _ => false

/-- Property access `v?.k` (and `v.k` on a known object): on an object, the
first binding of the key; on anything else, `undefined`. -/
def getField : JSValue → String → JSValue
  | .obj fs, k => (fs.lookup k).getD .undefined
  | _, _ => .undefined

/-- `a ?? b` — JavaScript nullish coalescing. -/
def nullishOr (a b : JSValue) : JSValue :=
  match a with
  | .vnull => b
  | .undefined => b
  | _ => a

/-- `Array.isArray(v) && v.length > 0`. -/
def isNonEmptyArray : JSValue → Bool
  | .arr (_ :: _) => true
  | _ => false

/-- Assignment `obj.k = x` at the association-list level: replaces the first
binding of `k` in place, or appends a new binding. -/
def setFields : List (String × JSValue) → String → JSValue → List (String × JSValue)
  | [], k, x => [(k, x)]
  | (k', v) :: rest, k, x =>
      if k' = k then (k, x) :: rest else (k', v) :: setFields rest k x

/-- Object spread `{...prev}`: the fields of an object, and `{}` for
`null`/`undefined`/non-objects (spread of a primitive yields no fields that
the dashboard core ever reads). -/
def toObj : JSValue → List (String × JSValue)
  | .obj fs => fs
  | _ => []

/-- The strict structured-text parser (`JSON.parse`): platform primitive,
abstracted as a parameter. `none` models a thrown `SyntaxError`. -/
abbrev JsonParse := String → Option JSValue

/-- A strict parser that fails on every input (used to instantiate
envelopes in which no string is ever parsed). -/
def noParse : JsonParse := fun _ => none

/-- The whitespace class used by the fence pattern's `\s*` and by
`String.prototype.trim` (ASCII subset; the Unicode space classes are not
exercised by any claim). -/
def isJsWS (c : Char) : Bool :=
  c == ' ' || c == '\t' || c == '\n' || c == '\r' || c == '\x0b' || c == '\x0c'

/-- `trim()` on a character list: drop leading and trailing whitespace. -/
def trimChars (l : List Char) : List Char :=
  ((l.dropWhile isJsWS).reverse.dropWhile isJsWS).reverse

/-- Split a character list at the first occurrence of a triple backtick:
returns the characters before it and the characters after it, or `none`
when no triple backtick occurs. -/
def splitAtTicks : List Char → Option (List Char × List Char)
  | [] => none
  | '`' :: '`' :: '`' :: rest => some ([], rest)
  | c :: rest => (splitAtTicks rest).map (fun pr => (c :: pr.1, pr.2))

/-- Model of the fenced-code-block search of source line 108,
the regular expression (triple backtick, optional `json` tag, optional
whitespace run, lazy body, triple backtick) followed by the `.trim()` of
source line 111: returns the trimmed body of the first fenced block, or
`none` when the string holds no complete fence. The regex's trailing
optional newline before the closing fence is absorbed by the trim. -/
def fenceBody (s : String) : Option String :=
  match splitAtTicks s.data with
  | none => none
  | some (_, afterOpen) =>
    let afterTag :=
      match afterOpen with
      | 'j' :: 's' :: 'o' :: 'n' :: rest => rest
      | l => l
    let afterWs := afterTag.dropWhile isJsWS
    match splitAtTicks afterWs with
    | none => none
    | some (body, _) => some (String.mk (trimChars body))

/-- The Tolerant Decoder, source lines 100-120 (`tryParseJSON`). Falsy
values (absent/empty) and non-decodable strings yield JavaScript `null`;
already-structured values pass through unchanged; a string is first parsed
whole and, failing that, the body of a fenced code block is parsed. -/
def tryParseJSON (p : JsonParse) (val : JSValue) : JSValue :=
  if truthy val = false then .vnull
  else
    match val with
    | .obj fs => .obj fs
    | .arr l => .arr l
    | .vstr s =>
      (match p s with
       | some v => v
       | none =>
         match fenceBody s with
         | some body =>
           (match p body with
            | some v => v
            | none => .vnull)
         | none => .vnull)
    | _ => .vnull

/-- Shape predicate of strategy 1 (source line 127): truthy, of object type,
and at least one of `message`, `metrics`, `lowStockAlerts`,
`inventoryItems` is truthy. -/
def looksLikeData4 (d : JSValue) : Bool :=
  truthy d && isObjectType d &&
    (truthy (getField d "message") || truthy (getField d "metrics") ||
     truthy (getField d "lowStockAlerts") || truthy (getField d "inventoryItems"))

/-- Shape predicate of strategies 2, 3, 4 and 6 (source lines 135, 149, 153,
161, 177): truthy, of object type, and at least one of `message`,
`metrics`, `lowStockAlerts` is truthy (`inventoryItems` is not tested). -/
def looksLikeData3 (d : JSValue) : Bool :=
  truthy d && isObjectType d &&
    (truthy (getField d "message") || truthy (getField d "metrics") ||
     truthy (getField d "lowStockAlerts"))

/-- Shape predicate of strategy 5's structured branch (source line 169):
truthy, of object type, and `metrics` or `lowStockAlerts` truthy. -/
def looksLikeData2 (d : JSValue) : Bool :=
  truthy d && isObjectType d &&
    (truthy (getField d "metrics") || truthy (getField d "lowStockAlerts"))

/-- The Envelope Resolver, source lines 122-182 (`parseAgentResponse`),
instrumented with the index (1-6) of the strategy whose `return` fired.
The six strategies are tried in source order; `none` models the final
`return null`. Strategy 3's nested guards (`if (result?.raw_response)`,
`if (rawParsed)`) are flattened into conjunctions of the same tests. -/
def parseAgentResponseTagged (p : JsonParse) (result : JSValue) :
    Option (Nat × JSValue) :=
  if truthy result = false then none
  else
    -- Strategy 1: result?.response?.result decoded directly (lines 126-129)
    let data := tryParseJSON p (getField (getField result "response") "result")
    if looksLikeData4 data then some (1, data)
    else
      -- Strategy 2: result?.response?.result?.text decoded (lines 131-138)
      let textField := getField (getField (getField result "response") "result") "text"
      let parsed := tryParseJSON p textField
      if truthy textField && looksLikeData3 parsed then some (2, parsed)
      else
        -- Strategy 3: raw_response, possibly with string-encoded response
        -- inside (lines 140-157)
        let rawResp := getField result "raw_response"
        let rawParsed := tryParseJSON p rawResp
        let inner0 := getField rawParsed "response"
        let inner := if isStr inner0 then tryParseJSON p inner0 else inner0
        if truthy rawResp && truthy rawParsed && looksLikeData3 inner then
          some (3, inner)
        else if truthy rawResp && truthy rawParsed && looksLikeData3 rawParsed then
          some (3, rawParsed)
        else
          -- Strategy 4: result?.response decoded directly (lines 159-163)
          let respDirect := tryParseJSON p (getField result "response")
          if looksLikeData3 respDirect then some (4, respDirect)
          else
            -- Strategy 5: result?.response?.message, decoded or synthesized
            -- (lines 165-174)
            let msgField := getField (getField result "response") "message"
            if truthy msgField && isStr msgField then
              let msgParsed := tryParseJSON p msgField
              if looksLikeData2 msgParsed then some (5, msgParsed)
              else some (5, .obj [("message", msgField)])
            else
              -- Strategy 6: the raw result itself (lines 176-179)
              if looksLikeData3 result then some (6, result)
              else none

/-- The Envelope Resolver as the source exposes it: the resolved snapshot
without the strategy index (`none` is the source's `null`). -/
def parseAgentResponse (p : JsonParse) (result : JSValue) : Option JSValue :=
  (parseAgentResponseTagged p result).map (fun pr => pr.2)

/-- The fixed fallback literal of source line 194. -/
def fallbackMessage : String := "Response received. Dashboard updated."

/-- The Message Extractor, source lines 184-195 (`extractMessageFromResult`).
`stringify` is `JSON.stringify`, applied only to a non-string
`response.result.text`. Each guard is the source's truthiness test. -/
def extractMessageFromResult (p : JsonParse) (stringify : JSValue → String)
    (result : JSValue) : JSValue :=
  let parsedMsg :=
    match parseAgentResponse p result with
    | some d => getField d "message"
    | none => JSValue.undefined
  if truthy parsedMsg then parsedMsg
  else
    let resp := getField result "response"
    if truthy (getField resp "message") then getField resp "message"
    else if truthy (getField (getField resp "result") "text") then
      (match getField (getField resp "result") "text" with
       | .vstr s => JSValue.vstr s
       | v => JSValue.vstr (stringify v))
    else if truthy (getField (getField resp "result") "message") then
      getField (getField resp "result") "message"
    else JSValue.vstr fallbackMessage

/-- One conditional field update `if (c) updated.k = x` of the merge in
`sendChat` (source lines 463-468), at the association-list level. -/
def condSet (u : List (String × JSValue)) (c : Bool) (k : String) (x : JSValue) :
    List (String × JSValue) :=
  if c then setFields u k x else u

/-- The State Merger: the update function passed to `setAgentData` in
`sendChat` (source lines 461-470). Starts from `{...prev}` and applies the
six conditional assignments in source order: `metrics` when truthy, each
list field when a non-empty array, `message` when truthy. -/
def mergeSnapshot (prev parsed : JSValue) : JSValue :=
  JSValue.obj
    (condSet
      (condSet
        (condSet
          (condSet
            (condSet
              (condSet (toObj prev)
                (truthy (getField parsed "metrics"))
                "metrics" (getField parsed "metrics"))
              (isNonEmptyArray (getField parsed "lowStockAlerts"))
              "lowStockAlerts" (getField parsed "lowStockAlerts"))
            (isNonEmptyArray (getField parsed "inventoryItems"))
            "inventoryItems" (getField parsed "inventoryItems"))
          (isNonEmptyArray (getField parsed "salesData"))
          "salesData" (getField parsed "salesData"))
        (isNonEmptyArray (getField parsed "orders"))
        "orders" (getField parsed "orders"))
      (truthy (getField parsed "message"))
      "message" (getField parsed "message"))

/-- The merge against an optional incoming snapshot: when the resolver
returned `null`, `setAgentData` is not called at all (source line 459),
so the previous snapshot is kept unchanged. -/
def mergeOpt (prev : JSValue) (incoming : Option JSValue) : JSValue :=
  match incoming with
  | none => prev
  | some parsed => mergeSnapshot prev parsed

/-- Sender of a chat message. -/
inductive Role where
  | user : Role
  | agent : Role
deriving Repr, DecidableEq

/-- A `ChatMessage` (source lines 84-88). `content` is typed `string` in the
source but at runtime carries whatever the extraction produced, so it is a
`JSValue`; the timestamp (`new Date()`) is an opaque `Nat` supplied by the
caller. -/
structure ChatMsg where
  role : Role
  content : JSValue
  timestamp : Nat
deriving Repr

/-- The page-level dashboard store: `agentData` (source line 354, `null`
initially), the chat transcript (line 360) and the error banner
(`useState<string | null>`; the stored value is a `JSValue` because
`result.error` is untyped). `loading` flags are set and cleared inside one
operation and are omitted. -/
structure DashState where
  agentData : Option JSValue
  chatMessages : List ChatMsg
  error : Option JSValue
deriving Repr

/-- Outcome of one `callAIAgent` invocation: the returned envelope (whose
`success` field the source tests), or a thrown exception. `threw` carries
the display string the catch block computes
(`e instanceof Error ? e.message : 'Network error'`). -/
inductive CallOutcome where
  | returned : JSValue → CallOutcome
  | threw : String → CallOutcome

/-- Error banner text for an unparsable successful response
(source line 422). -/
def parseMissAdvisory : String :=
  "Could not parse agent response. Try asking a question in the chat."

/-- The state transition of one complete `fetchDashboard` run (source lines
399-433), also triggered by the Refresh buttons (lines 613, 636). The
`setError(null)` at line 401 and any later `setError` collapse into the
final `error` shown. On success with a parsed snapshot, `setAgentData(parsed)`
stores the snapshot wholesale (line 416) and, when `parsed.message` is
truthy, `setChatMessages([...])` replaces the transcript with that single
agent message (line 418). -/
def fetchDashboardStep (p : JsonParse) (st : DashState) (outcome : CallOutcome)
    (now : Nat) : DashState :=
  match outcome with
  | .returned result =>
    if truthy (getField result "success") then
      match parseAgentResponse p result with
      | some parsed =>
        { agentData := some parsed
          chatMessages :=
            if truthy (getField parsed "message") then
              [ChatMsg.mk Role.agent (getField parsed "message") now]
            else st.chatMessages
          error := none }
      | none =>
        { st with error := some (.vstr parseMissAdvisory) }
    else
      { st with
        error := some (nullishOr (getField result "error")
          (.vstr "Agent call failed. Please retry.")) }
  | .threw m => { st with error := some (.vstr m) }

/-- The state transition of one complete `sendChat` run that passed the
input guard (source lines 445-486): `msg` is the already-trimmed non-empty
input. The user message is appended first (line 450); on success with a
parsed snapshot the merge of lines 461-470 is applied to the previous
snapshot (`{...null}` when none was stored) and the agent reply
`parsed?.message ?? extractMessageFromResult(result)` is appended; every
other outcome appends a fallback or error chat message and leaves
`agentData` untouched. `error` is never written by `sendChat`. -/
def sendChatStep (p : JsonParse) (stringify : JSValue → String) (st : DashState)
    (msg : String) (outcome : CallOutcome) (now1 now2 : Nat) : DashState :=
  let base : DashState := { st with
    chatMessages := st.chatMessages ++ [ChatMsg.mk Role.user (.vstr msg) now1] }
  match outcome with
  | .returned result =>
    if truthy (getField result "success") then
      match parseAgentResponse p result with
      | some parsed =>
        { base with
          agentData := some (mergeSnapshot (st.agentData.getD .vnull) parsed)
          chatMessages := base.chatMessages ++
            [ChatMsg.mk Role.agent
              (nullishOr (getField parsed "message")
                (extractMessageFromResult p stringify result)) now2] }
      | none =>
        { base with
          chatMessages := base.chatMessages ++
            [ChatMsg.mk Role.agent (extractMessageFromResult p stringify result) now2] }
    else
      { base with
        chatMessages := base.chatMessages ++
          [ChatMsg.mk Role.agent
            (nullishOr (getField result "error")
              (.vstr "Sorry, something went wrong.")) now2] }
  | .threw m =>
    { base with
      chatMessages := base.chatMessages ++ [ChatMsg.mk Role.agent (.vstr m) now2] }

/-! ## Helper lemmas -/

theorem lookup_setFields_self (fs : List (String × JSValue)) (k : String)
    (x : JSValue) : (setFields fs k x).lookup k = some x := by
  induction fs with
  | nil => simp [setFields, List.lookup]
  | cons a rest ih =>
    obtain ⟨a1, a2⟩ := a
    by_cases h : a1 = k
    · subst h; simp [setFields, List.lookup]
    · have hb : (k == a1) = false := beq_eq_false_iff_ne.mpr (Ne.symm h)
      simp [setFields, h, List.lookup, hb, ih]

theorem lookup_setFields_ne (fs : List (String × JSValue)) (k k' : String)
    (x : JSValue) (h : k ≠ k') :
    (setFields fs k x).lookup k' = fs.lookup k' := by
  have hb : (k' == k) = false := beq_eq_false_iff_ne.mpr (Ne.symm h)
  induction fs with
  | nil => simp [setFields, List.lookup, hb]
  | cons a rest ih =>
    obtain ⟨a1, a2⟩ := a
    by_cases h2 : a1 = k
    · subst h2; simp [setFields, List.lookup, hb]
    · simp [setFields, h2, List.lookup, ih]

theorem getField_obj (fs : List (String × JSValue)) (k : String) :
    getField (.obj fs) k = (fs.lookup k).getD .undefined := rfl

theorem lookup_toObj (S : JSValue) (k : String) :
    ((toObj S).lookup k).getD .undefined = getField S k := by
  cases S <;> simp [toObj, getField, List.lookup]

theorem lookup_condSet_ne (u : List (String × JSValue)) (c : Bool)
    (k k' : String) (x : JSValue) (h : k ≠ k') :
    (condSet u c k x).lookup k' = u.lookup k' := by
  unfold condSet
  split
  · exact lookup_setFields_ne u k k' x h
  · rfl

theorem lookup_condSet_self (u : List (String × JSValue)) (c : Bool)
    (k : String) (x : JSValue) :
    (condSet u c k x).lookup k = if c then some x else u.lookup k := by
  unfold condSet
  split <;> simp [lookup_setFields_self]

theorem mergeSnapshot_getField_metrics (S I : JSValue) :
    getField (mergeSnapshot S I) "metrics" =
      if truthy (getField I "metrics") then getField I "metrics"
      else getField S "metrics" := by
  unfold mergeSnapshot
  rw [getField_obj,
    lookup_condSet_ne _ _ _ _ _ (by decide),
    lookup_condSet_ne _ _ _ _ _ (by decide),
    lookup_condSet_ne _ _ _ _ _ (by decide),
    lookup_condSet_ne _ _ _ _ _ (by decide),
    lookup_condSet_ne _ _ _ _ _ (by decide),
    lookup_condSet_self]
  by_cases h : truthy (getField I "metrics") <;> simp [h, lookup_toObj]

theorem mergeSnapshot_getField_lowStockAlerts (S I : JSValue) :
    getField (mergeSnapshot S I) "lowStockAlerts" =
      if isNonEmptyArray (getField I "lowStockAlerts") then
        getField I "lowStockAlerts"
      else getField S "lowStockAlerts" := by
  unfold mergeSnapshot
  rw [getField_obj,
    lookup_condSet_ne _ _ _ _ _ (by decide),
    lookup_condSet_ne _ _ _ _ _ (by decide),
    lookup_condSet_ne _ _ _ _ _ (by decide),
    lookup_condSet_ne _ _ _ _ _ (by decide),
    lookup_condSet_self,
    lookup_condSet_ne _ _ _ _ _ (by decide)]
  by_cases h : isNonEmptyArray (getField I "lowStockAlerts") <;>
    simp [h, lookup_toObj]

theorem mergeSnapshot_getField_inventoryItems (S I : JSValue) :
    getField (mergeSnapshot S I) "inventoryItems" =
      if isNonEmptyArray (getField I "inventoryItems") then
        getField I "inventoryItems"
      else getField S "inventoryItems" := by
  unfold mergeSnapshot
  rw [getField_obj,
    lookup_condSet_ne _ _ _ _ _ (by decide),
    lookup_condSet_ne _ _ _ _ _ (by decide),
    lookup_condSet_ne _ _ _ _ _ (by decide),
    lookup_condSet_self,
    lookup_condSet_ne _ _ _ _ _ (by decide),
    lookup_condSet_ne _ _ _ _ _ (by decide)]
  by_cases h : isNonEmptyArray (getField I "inventoryItems") <;>
    simp [h, lookup_toObj]

theorem mergeSnapshot_getField_salesData (S I : JSValue) :
    getField (mergeSnapshot S I) "salesData" =
      if isNonEmptyArray (getField I "salesData") then getField I "salesData"
      else getField S "salesData" := by
  unfold mergeSnapshot
  rw [getField_obj,
    lookup_condSet_ne _ _ _ _ _ (by decide),
    lookup_condSet_ne _ _ _ _ _ (by decide),
    lookup_condSet_self,
    lookup_condSet_ne _ _ _ _ _ (by decide),
    lookup_condSet_ne _ _ _ _ _ (by decide),
    lookup_condSet_ne _ _ _ _ _ (by decide)]
  by_cases h : isNonEmptyArray (getField I "salesData") <;>
    simp [h, lookup_toObj]

theorem mergeSnapshot_getField_orders (S I : JSValue) :
    getField (mergeSnapshot S I) "orders" =
      if isNonEmptyArray (getField I "orders") then getField I "orders"
      else getField S "orders" := by
  unfold mergeSnapshot
  rw [getField_obj,
    lookup_condSet_ne _ _ _ _ _ (by decide),
    lookup_condSet_self,
    lookup_condSet_ne _ _ _ _ _ (by decide),
    lookup_condSet_ne _ _ _ _ _ (by decide),
    lookup_condSet_ne _ _ _ _ _ (by decide),
    lookup_condSet_ne _ _ _ _ _ (by decide)]
  by_cases h : isNonEmptyArray (getField I "orders") <;> simp [h, lookup_toObj]

theorem mergeSnapshot_getField_message (S I : JSValue) :
    getField (mergeSnapshot S I) "message" =
      if truthy (getField I "message") then getField I "message"
      else getField S "message" := by
  unfold mergeSnapshot
  rw [getField_obj,
    lookup_condSet_self,
    lookup_condSet_ne _ _ _ _ _ (by decide),
    lookup_condSet_ne _ _ _ _ _ (by decide),
    lookup_condSet_ne _ _ _ _ _ (by decide),
    lookup_condSet_ne _ _ _ _ _ (by decide),
    lookup_condSet_ne _ _ _ _ _ (by decide)]
  by_cases h : truthy (getField I "message") <;> simp [h, lookup_toObj]

theorem isNonEmptyArray_of_ne_nil (l : List JSValue) (h : l ≠ []) :
    isNonEmptyArray (.arr l) = true := by
  cases l with
  | nil => exact absurd rfl h
  | cons a t => rfl

/-! ## Claims -/

/-- C1 counterexample: the incoming snapshot's `message` is present (bound
to the empty string), yet the merge keeps the previous `message` — the
source line 468 guard `if (parsed.message)` tests truthiness, not
presence, so "message is replaced exactly when I.message is present" fails
at `I = {message: ""}`. -/
theorem C1_counterexample :
    getField (JSValue.obj [("message", JSValue.vstr "")]) "message" =
      JSValue.vstr "" ∧
    getField
      (mergeSnapshot (JSValue.obj [("message", JSValue.vstr "hello")])
        (JSValue.obj [("message", JSValue.vstr "")])) "message" =
      JSValue.vstr "hello" ∧
    JSValue.vstr "hello" ≠ JSValue.vstr "" := by
  refine ⟨rfl, rfl, ?_⟩
  intro h
  injection h with h'
  exact absurd h' (by decide)

/-- C1 (amended): the state merge is field-wise non-destructive:
`merge(S, None) = S`; each list field of the result equals `I`'s list when
that list is present and non-empty and equals `S`'s list when it is absent
or empty; `metrics` is replaced wholesale exactly when `I.metrics` is
present (a record); and `message` is replaced exactly when `I.message` is
present *and non-empty* (an empty incoming message leaves the previous one
untouched). -/
theorem C1_merge_nondestructive (S I : JSValue) :
    mergeOpt S none = S ∧
    ((∃ l, getField I "lowStockAlerts" = JSValue.arr l ∧ l ≠ []) →
      getField (mergeSnapshot S I) "lowStockAlerts" =
        getField I "lowStockAlerts") ∧
    ((getField I "lowStockAlerts" = JSValue.undefined ∨
        getField I "lowStockAlerts" = JSValue.arr []) →
      getField (mergeSnapshot S I) "lowStockAlerts" =
        getField S "lowStockAlerts") ∧
    ((∃ l, getField I "inventoryItems" = JSValue.arr l ∧ l ≠ []) →
      getField (mergeSnapshot S I) "inventoryItems" =
        getField I "inventoryItems") ∧
    ((getField I "inventoryItems" = JSValue.undefined ∨
        getField I "inventoryItems" = JSValue.arr []) →
      getField (mergeSnapshot S I) "inventoryItems" =
        getField S "inventoryItems") ∧
    ((∃ l, getField I "salesData" = JSValue.arr l ∧ l ≠ []) →
      getField (mergeSnapshot S I) "salesData" = getField I "salesData") ∧
    ((getField I "salesData" = JSValue.undefined ∨
        getField I "salesData" = JSValue.arr []) →
      getField (mergeSnapshot S I) "salesData" = getField S "salesData") ∧
    ((∃ l, getField I "orders" = JSValue.arr l ∧ l ≠ []) →
      getField (mergeSnapshot S I) "orders" = getField I "orders") ∧
    ((getField I "orders" = JSValue.undefined ∨
        getField I "orders" = JSValue.arr []) →
      getField (mergeSnapshot S I) "orders" = getField S "orders") ∧
    ((∃ fs, getField I "metrics" = JSValue.obj fs) →
      getField (mergeSnapshot S I) "metrics" = getField I "metrics") ∧
    (getField I "metrics" = JSValue.undefined →
      getField (mergeSnapshot S I) "metrics" = getField S "metrics") ∧
    ((∃ s, getField I "message" = JSValue.vstr s ∧ s ≠ "") →
      getField (mergeSnapshot S I) "message" = getField I "message") ∧
    ((getField I "message" = JSValue.undefined ∨
        getField I "message" = JSValue.vstr "") →
      getField (mergeSnapshot S I) "message" = getField S "message") := by
  refine ⟨rfl, ?_, ?_, ?_, ?_, ?_, ?_, ?_, ?_, ?_, ?_, ?_, ?_⟩
  · rintro ⟨l, hl, hne⟩
    rw [mergeSnapshot_getField_lowStockAlerts, hl,
      if_pos (isNonEmptyArray_of_ne_nil l hne)]
  · rintro (h | h) <;> rw [mergeSnapshot_getField_lowStockAlerts, h] <;>
      simp [isNonEmptyArray]
  · rintro ⟨l, hl, hne⟩
    rw [mergeSnapshot_getField_inventoryItems, hl,
      if_pos (isNonEmptyArray_of_ne_nil l hne)]
  · rintro (h | h) <;> rw [mergeSnapshot_getField_inventoryItems, h] <;>
      simp [isNonEmptyArray]
  · rintro ⟨l, hl, hne⟩
    rw [mergeSnapshot_getField_salesData, hl,
      if_pos (isNonEmptyArray_of_ne_nil l hne)]
  · rintro (h | h) <;> rw [mergeSnapshot_getField_salesData, h] <;>
      simp [isNonEmptyArray]
  · rintro ⟨l, hl, hne⟩
    rw [mergeSnapshot_getField_orders, hl,
      if_pos (isNonEmptyArray_of_ne_nil l hne)]
  · rintro (h | h) <;> rw [mergeSnapshot_getField_orders, h] <;>
      simp [isNonEmptyArray]
  · rintro ⟨fs, hfs⟩
    rw [mergeSnapshot_getField_metrics, hfs,
      if_pos (show truthy (JSValue.obj fs) = true from rfl)]
  · intro h
    rw [mergeSnapshot_getField_metrics, h]
    simp [truthy]
  · rintro ⟨s, hs, hne⟩
    rw [mergeSnapshot_getField_message, hs,
      if_pos (show truthy (JSValue.vstr s) = true by simp [truthy, hne])]
  · rintro (h | h) <;> rw [mergeSnapshot_getField_message, h] <;> simp [truthy]

/-- C1 witness: a concrete merge in which a non-empty incoming
`inventoryItems`/`metrics`/`message` replaces, an empty incoming
`salesData` is ignored, and `merge(S, None) = S`. -/
theorem C1_merge_nondestructive_witness :
    getField
      (mergeSnapshot
        (JSValue.obj [("salesData", JSValue.arr [JSValue.vstr "a"]),
          ("message", JSValue.vstr "old")])
        (JSValue.obj [("salesData", JSValue.arr []),
          ("inventoryItems", JSValue.arr [JSValue.vstr "b"]),
          ("metrics", JSValue.obj [("totalSKUs", JSValue.vnum 5)]),
          ("message", JSValue.vstr "new")])) "salesData" =
      JSValue.arr [JSValue.vstr "a"] ∧
    getField
      (mergeSnapshot
        (JSValue.obj [("salesData", JSValue.arr [JSValue.vstr "a"]),
          ("message", JSValue.vstr "old")])
        (JSValue.obj [("salesData", JSValue.arr []),
          ("inventoryItems", JSValue.arr [JSValue.vstr "b"]),
          ("metrics", JSValue.obj [("totalSKUs", JSValue.vnum 5)]),
          ("message", JSValue.vstr "new")])) "inventoryItems" =
      JSValue.arr [JSValue.vstr "b"] ∧
    getField
      (mergeSnapshot
        (JSValue.obj [("salesData", JSValue.arr [JSValue.vstr "a"]),
          ("message", JSValue.vstr "old")])
        (JSValue.obj [("salesData", JSValue.arr []),
          ("inventoryItems", JSValue.arr [JSValue.vstr "b"]),
          ("metrics", JSValue.obj [("totalSKUs", JSValue.vnum 5)]),
          ("message", JSValue.vstr "new")])) "message" =
      JSValue.vstr "new" ∧
    mergeOpt (JSValue.obj [("salesData", JSValue.arr [JSValue.vstr "a"]),
        ("message", JSValue.vstr "old")]) none =
      JSValue.obj [("salesData", JSValue.arr [JSValue.vstr "a"]),
        ("message", JSValue.vstr "old")] := by
  obtain ⟨h0, _, _, h3, _, _, h6, _, _, _, _, h11, _⟩ :=
    C1_merge_nondestructive
      (JSValue.obj [("salesData", JSValue.arr [JSValue.vstr "a"]),
        ("message", JSValue.vstr "old")])
      (JSValue.obj [("salesData", JSValue.arr []),
        ("inventoryItems", JSValue.arr [JSValue.vstr "b"]),
        ("metrics", JSValue.obj [("totalSKUs", JSValue.vnum 5)]),
        ("message", JSValue.vstr "new")])
  refine ⟨h6 (Or.inr rfl), h3 ⟨[JSValue.vstr "b"], rfl, List.cons_ne_nil _ _⟩,
    h11 ⟨"new", rfl, by decide⟩, h0⟩

/-- C8: the merge is order-tolerant: for any stored snapshot `S`,
merging `{salesData:[s1]}` and `{salesData:[]}` in either order leaves
`salesData = [s1]` — an empty incoming list never overwrites. -/
theorem C8_merge_order_tolerant (S s1 : JSValue) :
    getField
      (mergeSnapshot
        (mergeSnapshot S (JSValue.obj [("salesData", JSValue.arr [s1])]))
        (JSValue.obj [("salesData", JSValue.arr [])])) "salesData" =
      JSValue.arr [s1] ∧
    getField
      (mergeSnapshot
        (mergeSnapshot S (JSValue.obj [("salesData", JSValue.arr [])]))
        (JSValue.obj [("salesData", JSValue.arr [s1])])) "salesData" =
      JSValue.arr [s1] := by
  constructor
  · rw [mergeSnapshot_getField_salesData,
      show getField (JSValue.obj [("salesData", JSValue.arr [])]) "salesData" =
        JSValue.arr [] from rfl,
      if_neg (by simp [isNonEmptyArray]),
      mergeSnapshot_getField_salesData,
      show getField (JSValue.obj [("salesData", JSValue.arr [s1])]) "salesData" =
        JSValue.arr [s1] from rfl,
      if_pos (show isNonEmptyArray (JSValue.arr [s1]) = true from rfl)]
  · rw [mergeSnapshot_getField_salesData,
      show getField (JSValue.obj [("salesData", JSValue.arr [s1])]) "salesData" =
        JSValue.arr [s1] from rfl,
      if_pos (show isNonEmptyArray (JSValue.arr [s1]) = true from rfl)]

/-- C3 counterexample: a decoded record whose only recognized key is
`inventoryItems` is rejected by the predicate of strategies 2-4 and 6
(source tests only `message || metrics || lowStockAlerts` there), so an
envelope presenting that record at strategy 2's location
(`response.result.text`) resolves to `None` — the strategies do not share
one acceptance predicate. -/
theorem C3_counterexample :
    looksLikeData4
      (JSValue.obj [("inventoryItems",
        JSValue.arr [JSValue.obj [("product", JSValue.vstr "Gloves")]])]) =
      true ∧
    looksLikeData3
      (JSValue.obj [("inventoryItems",
        JSValue.arr [JSValue.obj [("product", JSValue.vstr "Gloves")]])]) =
      false ∧
    parseAgentResponse noParse
      (JSValue.obj [("response", JSValue.obj [("result",
        JSValue.obj [("text",
          JSValue.obj [("inventoryItems",
            JSValue.arr [JSValue.obj [("product", JSValue.vstr "Gloves")]])])])])]) =
      none :=
  ⟨rfl, rfl, rfl⟩

/-- C3 (amended): the resolver tries its strategies in a fixed order with
first success winning, but the acceptance predicate is not shared:
strategy 1 accepts a truthy record with any of `message`, `metrics`,
`lowStockAlerts`, `inventoryItems` truthy; strategies 2, 3, 4 and 6 test
only the first three keys; strategy 5's structured branch tests only
`metrics`/`lowStockAlerts`. A record whose only recognized key is
`inventoryItems` is accepted by strategy 1's predicate and rejected by all
the others; placed at strategy 1's location it resolves via strategy 1,
placed at strategy 2's location it resolves to `None`. -/
theorem C3_acceptance_predicates (p : JsonParse) (d : JSValue)
    (htr : truthy d = true) (hob : isObjectType d = true)
    (hmsg : truthy (getField d "message") = false)
    (hmet : truthy (getField d "metrics") = false)
    (hlow : truthy (getField d "lowStockAlerts") = false)
    (hinv : truthy (getField d "inventoryItems") = true) :
    looksLikeData4 d = true ∧ looksLikeData3 d = false ∧
    looksLikeData2 d = false ∧
    parseAgentResponseTagged p
      (JSValue.obj [("response", JSValue.obj [("result",
        JSValue.obj [("inventoryItems",
          JSValue.arr [JSValue.obj [("product", JSValue.vstr "Gloves")]])])])]) =
      some (1, JSValue.obj [("inventoryItems",
        JSValue.arr [JSValue.obj [("product", JSValue.vstr "Gloves")]])]) ∧
    parseAgentResponse p
      (JSValue.obj [("response", JSValue.obj [("result",
        JSValue.obj [("text",
          JSValue.obj [("inventoryItems",
            JSValue.arr [JSValue.obj [("product", JSValue.vstr "Gloves")]])])])])]) =
      none := by
  refine ⟨?_, ?_, ?_, rfl, rfl⟩
  · simp [looksLikeData4, htr, hob, hmsg, hmet, hlow, hinv]
  · simp [looksLikeData3, htr, hob, hmsg, hmet, hlow]
  · simp [looksLikeData2, htr, hob, hmet, hlow]

/-- C3 witness: the predicate separation at the concrete
inventoryItems-only record. -/
theorem C3_acceptance_predicates_witness :
    looksLikeData4
      (JSValue.obj [("inventoryItems",
        JSValue.arr [JSValue.obj [("product", JSValue.vstr "Gloves")]])]) =
      true ∧
    looksLikeData3
      (JSValue.obj [("inventoryItems",
        JSValue.arr [JSValue.obj [("product", JSValue.vstr "Gloves")]])]) =
      false ∧
    looksLikeData2
      (JSValue.obj [("inventoryItems",
        JSValue.arr [JSValue.obj [("product", JSValue.vstr "Gloves")]])]) =
      false := by
  obtain ⟨h1, h2, h3, _, _⟩ :=
    C3_acceptance_predicates noParse
      (JSValue.obj [("inventoryItems",
        JSValue.arr [JSValue.obj [("product", JSValue.vstr "Gloves")]])])
      rfl rfl rfl rfl rfl rfl
  exact ⟨h1, h2, h3⟩

/-- C10: all resolver acceptance checks test truthiness of the field
values, not key presence: a record in which every recognized key is absent
or bound to a falsy value fails all three shape predicates, and a concrete
envelope whose strategy-1 candidate carries all four recognized keys bound
to falsy values (`""`, `0`, `null`, `false`) resolves to `None`. -/
theorem C10_truthiness_not_presence (p : JsonParse) (d : JSValue)
    (hmsg : truthy (getField d "message") = false)
    (hmet : truthy (getField d "metrics") = false)
    (hlow : truthy (getField d "lowStockAlerts") = false)
    (hinv : truthy (getField d "inventoryItems") = false) :
    looksLikeData4 d = false ∧ looksLikeData3 d = false ∧
    looksLikeData2 d = false ∧
    getField
      (JSValue.obj [("message", JSValue.vstr ""), ("metrics", JSValue.vnum 0),
        ("lowStockAlerts", JSValue.vnull),
        ("inventoryItems", JSValue.vbool false)]) "message" = JSValue.vstr "" ∧
    parseAgentResponse p
      (JSValue.obj [("response", JSValue.obj [("result",
        JSValue.obj [("message", JSValue.vstr ""), ("metrics", JSValue.vnum 0),
          ("lowStockAlerts", JSValue.vnull),
          ("inventoryItems", JSValue.vbool false)])])]) = none := by
  refine ⟨?_, ?_, ?_, rfl, rfl⟩
  · simp [looksLikeData4, hmsg, hmet, hlow, hinv]
  · simp [looksLikeData3, hmsg, hmet, hlow]
  · simp [looksLikeData2, hmet, hlow]

/-- C10 witness: the all-falsy record is rejected by every predicate. -/
theorem C10_truthiness_not_presence_witness :
    looksLikeData4
      (JSValue.obj [("message", JSValue.vstr ""), ("metrics", JSValue.vnum 0),
        ("lowStockAlerts", JSValue.vnull),
        ("inventoryItems", JSValue.vbool false)]) = false ∧
    parseAgentResponse noParse
      (JSValue.obj [("response", JSValue.obj [("result",
        JSValue.obj [("message", JSValue.vstr ""), ("metrics", JSValue.vnum 0),
          ("lowStockAlerts", JSValue.vnull),
          ("inventoryItems", JSValue.vbool false)])])]) = none := by
  obtain ⟨h1, _, _, _, h5⟩ :=
    C10_truthiness_not_presence noParse
      (JSValue.obj [("message", JSValue.vstr ""), ("metrics", JSValue.vnum 0),
        ("lowStockAlerts", JSValue.vnull),
        ("inventoryItems", JSValue.vbool false)])
      rfl rfl rfl rfl
  exact ⟨h1, h5⟩

/-- C5: the tolerant decoder's case analysis. Absent/empty values decode
to Failure (`null`); a non-string structured value (object or array) is
returned unchanged; a non-empty string is first strictly parsed as a
whole, with the parse result returned on success; otherwise the body of a
fenced code block is strictly parsed, returning that result on success,
and Failure on parse failure or when no fence exists — in particular
`decode("not json at all")` is Failure whenever the strict parser rejects
that text. -/
theorem C5_decoder_cases (p : JsonParse) :
    tryParseJSON p .undefined = .vnull ∧
    tryParseJSON p .vnull = .vnull ∧
    tryParseJSON p (.vstr "") = .vnull ∧
    (∀ fs, tryParseJSON p (.obj fs) = .obj fs) ∧
    (∀ l, tryParseJSON p (.arr l) = .arr l) ∧
    (∀ s v, s ≠ "" → p s = some v → tryParseJSON p (.vstr s) = v) ∧
    (∀ s b v, s ≠ "" → p s = none → fenceBody s = some b → p b = some v →
      tryParseJSON p (.vstr s) = v) ∧
    (∀ s b, s ≠ "" → p s = none → fenceBody s = some b → p b = none →
      tryParseJSON p (.vstr s) = .vnull) ∧
    (∀ s, s ≠ "" → p s = none → fenceBody s = none →
      tryParseJSON p (.vstr s) = .vnull) ∧
    (p "not json at all" = none →
      tryParseJSON p (.vstr "not json at all") = .vnull) := by
  refine ⟨rfl, rfl, rfl, fun fs => rfl, fun l => rfl, ?_, ?_, ?_, ?_, ?_⟩
  · intro s v hs hp
    have ht : truthy (JSValue.vstr s) = true := by simp [truthy, hs]
    simp [tryParseJSON, ht, hp]
  · intro s b v hs hp hf hb
    have ht : truthy (JSValue.vstr s) = true := by simp [truthy, hs]
    simp [tryParseJSON, ht, hp, hf, hb]
  · intro s b hs hp hf hb
    have ht : truthy (JSValue.vstr s) = true := by simp [truthy, hs]
    simp [tryParseJSON, ht, hp, hf, hb]
  · intro s hs hp hf
    have ht : truthy (JSValue.vstr s) = true := by simp [truthy, hs]
    simp [tryParseJSON, ht, hp, hf]
  · intro hp
    have hf : fenceBody "not json at all" = none := by decide
    simp [tryParseJSON, hp, hf, truthy]

/-- C5 witness: a concrete strict parser that recognizes exactly the text
`{"a":1}`, exercising the whole-string branch, the fenced-block branch,
and the no-fence Failure branch. -/
theorem C5_decoder_cases_witness :
    tryParseJSON
        (fun s => if s = "\x7b\"a\":1\x7d"
          then some (JSValue.obj [("a", JSValue.vnum 1)]) else none)
        (.vstr "\x7b\"a\":1\x7d") =
      JSValue.obj [("a", JSValue.vnum 1)] ∧
    tryParseJSON
        (fun s => if s = "\x7b\"a\":1\x7d"
          then some (JSValue.obj [("a", JSValue.vnum 1)]) else none)
        (.vstr "reply: ```json\n\x7b\"a\":1\x7d\n```") =
      JSValue.obj [("a", JSValue.vnum 1)] ∧
    tryParseJSON
        (fun s => if s = "\x7b\"a\":1\x7d"
          then some (JSValue.obj [("a", JSValue.vnum 1)]) else none)
        (.vstr "not json at all") = .vnull ∧
    tryParseJSON
        (fun s => if s = "\x7b\"a\":1\x7d"
          then some (JSValue.obj [("a", JSValue.vnum 1)]) else none)
        JSValue.undefined = .vnull := by
  obtain ⟨h1, _, _, _, _, h6, h7, _, _, h10⟩ :=
    C5_decoder_cases
      (fun s => if s = "\x7b\"a\":1\x7d"
        then some (JSValue.obj [("a", JSValue.vnum 1)]) else none)
  refine ⟨h6 _ _ (by decide) rfl, ?_, h10 rfl, h1⟩
  exact h7 "reply: ```json\n\x7b\"a\":1\x7d\n```" "\x7b\"a\":1\x7d" _
    (by decide) rfl (by decide) rfl

theorem obj_of_getField {v : JSValue} {k : String}
    (h : getField v k ≠ .undefined) : ∃ fs, v = .obj fs := by
  cases v <;> first | exact ⟨_, rfl⟩ | exact absurd rfl h

theorem tryParseJSON_obj (p : JsonParse) (fs : List (String × JSValue)) :
    tryParseJSON p (.obj fs) = .obj fs := rfl

theorem strategy4_catches (p : JsonParse) (r : JSValue)
    (h : truthy r = true)
    (h4 : looksLikeData3 (tryParseJSON p (getField r "response")) = true) :
    ∃ i d, parseAgentResponseTagged p r = some (i, d) ∧ i ≤ 4 := by
  simp only [parseAgentResponseTagged]
  split_ifs with h0 c1 c2 c3a c3b c4 c5g c5s c6 <;>
    first
      | exact ⟨_, _, rfl, by omega⟩
      | simp [h] at h0
      | exact absurd h4 c4

/-- C6 counterexample: on the envelope `{response:{message:"Here are your
top sellers"}}` the resolver returns `{message:...}` via **strategy 4**
(the decoded `response` object itself satisfies the shape predicate
because its `message` is truthy), not via strategy 5's synthesis. -/
theorem C6_counterexample :
    parseAgentResponseTagged noParse
      (JSValue.obj [("response",
        JSValue.obj [("message", JSValue.vstr "Here are your top sellers")])]) =
      some (4,
        JSValue.obj [("message", JSValue.vstr "Here are your top sellers")]) ∧
    (4 : Nat) ≠ 5 :=
  ⟨rfl, by decide⟩

/-- C6 (amended): strategy 5's synthesis branch is unreachable for
envelopes whose `response.message` is a non-empty string: such an envelope
is always resolved by strategy 4 at the latest (the `response` object
itself passes the shape predicate since its `message` is truthy), so the
original claim's precondition "strategies 1-4 fail and `response.message`
is a non-empty string" is unsatisfiable;
`resolve({response:{message:"Here are your top sellers"}})` does return
`{message:"Here are your top sellers"}`, but via strategy 4 — the
returned snapshot is the whole `response` object. -/
theorem C6_strategy5_unreachable (p : JsonParse) (r : JSValue) (s : String)
    (hmsg : getField (getField r "response") "message" = JSValue.vstr s)
    (hs : s ≠ "") :
    (∃ i d, parseAgentResponseTagged p r = some (i, d) ∧ i ≤ 4) ∧
    parseAgentResponse p
      (JSValue.obj [("response",
        JSValue.obj [("message", JSValue.vstr "Here are your top sellers")])]) =
      some (JSValue.obj [("message", JSValue.vstr "Here are your top sellers")]) := by
  refine ⟨?_, rfl⟩
  have h1 : getField (getField r "response") "message" ≠ JSValue.undefined := by
    rw [hmsg]; intro hh; exact JSValue.noConfusion hh
  obtain ⟨gs, hgs⟩ := obj_of_getField h1
  have h2 : getField r "response" ≠ JSValue.undefined := by
    rw [hgs]; intro hh; exact JSValue.noConfusion hh
  obtain ⟨fs, hfs⟩ := obj_of_getField h2
  have htr : truthy r = true := by rw [hfs]; rfl
  have hm : getField (JSValue.obj gs) "message" = JSValue.vstr s := hgs ▸ hmsg
  have h4 : looksLikeData3 (tryParseJSON p (getField r "response")) = true := by
    rw [hgs, tryParseJSON_obj]
    simp [looksLikeData3, truthy, isObjectType, hm, hs]
  exact strategy4_catches p r htr h4

/-- C6 witness: the unreachability theorem applied at the spec's own
example envelope. -/
theorem C6_strategy5_unreachable_witness :
    ∃ i d, parseAgentResponseTagged noParse
      (JSValue.obj [("response",
        JSValue.obj [("message", JSValue.vstr "Here are your top sellers")])]) =
      some (i, d) ∧ i ≤ 4 := by
  obtain ⟨h1, _⟩ :=
    C6_strategy5_unreachable noParse
      (JSValue.obj [("response",
        JSValue.obj [("message", JSValue.vstr "Here are your top sellers")])])
      "Here are your top sellers" rfl (by decide)
  exact h1

/-- C7 counterexample: for the envelope `{response:{message:42}}` the
extractor returns the number `42` itself (the resolver accepts the
`response` object because `42` is truthy, and `parsed.message` is returned
without stringification), so "extractMessage returns a string" fails. -/
theorem C7_counterexample :
    extractMessageFromResult noParse (fun _ => "")
      (JSValue.obj [("response", JSValue.obj [("message", JSValue.vnum 42)])]) =
      JSValue.vnum 42 ∧
    isStr (JSValue.vnum 42) = false :=
  ⟨rfl, rfl⟩

/-- C7 (amended): the extractor always returns a truthy value — in
particular never the empty string and never null/undefined — trying in
order the resolved snapshot's `message`, the envelope's `response.message`,
`response.result.text` (stringified when not already a string),
`response.result.message`, and the fixed fallback literal; but the
message-field paths return the stored value as-is, so the result is a
string only when those fields hold strings. `extractMessage({})` is the
fixed fallback literal, while `resolve({})` is `None`. The `stringify`
hypothesis records that `JSON.stringify` of a truthy value is a non-empty
string. -/
theorem C7_extract_always_truthy (p : JsonParse) (stringify : JSValue → String)
    (hst : ∀ v, stringify v ≠ "") (r : JSValue) :
    truthy (extractMessageFromResult p stringify r) = true ∧
    extractMessageFromResult p stringify r ≠ JSValue.vstr "" ∧
    extractMessageFromResult p stringify (JSValue.obj []) =
      JSValue.vstr fallbackMessage ∧
    parseAgentResponse p (JSValue.obj []) = none := by
  have htru : truthy (extractMessageFromResult p stringify r) = true := by
    simp only [extractMessageFromResult]
    split_ifs with h1 h2 h3 h4
    · exact h1
    · exact h2
    · split
      · next s heq => rw [heq] at h3; exact h3
      · next v heq =>
          simp only [truthy]
          exact bne_iff_ne.mpr (hst _)
    · exact h4
    · rfl
  refine ⟨htru, ?_, rfl, rfl⟩
  intro h
  rw [h] at htru
  simp [truthy] at htru

/-- C7 witness: the truthiness guarantee and the empty-envelope behavior at
a concrete stringify function and envelope. -/
theorem C7_extract_always_truthy_witness :
    truthy (extractMessageFromResult noParse (fun _ => "x")
      (JSValue.obj [])) = true ∧
    extractMessageFromResult noParse (fun _ => "x") (JSValue.obj []) =
      JSValue.vstr fallbackMessage ∧
    parseAgentResponse noParse (JSValue.obj []) = none := by
  obtain ⟨h1, _, h3, h4⟩ :=
    C7_extract_always_truthy noParse (fun _ => "x")
      (fun _ => (by decide : ("x" : String) ≠ "")) (JSValue.obj [])
  exact ⟨h1, h3, h4⟩

/-- C2 counterexample: a successful dashboard fetch whose resolved
snapshot lacks `salesData` does **not** leave the stored `salesData`
unchanged — `fetchDashboard` stores the resolved snapshot wholesale
(source line 416), so the previously stored list is dropped. -/
theorem C2_counterexample :
    (fetchDashboardStep noParse
      ⟨some (JSValue.obj [("salesData",
          JSValue.arr [JSValue.obj [("product", JSValue.vstr "X")]])]),
        [], none⟩
      (.returned (JSValue.obj [("success", JSValue.vbool true),
        ("response", JSValue.obj [("message", JSValue.vstr "m")])]))
      7).agentData =
      some (JSValue.obj [("message", JSValue.vstr "m")]) ∧
    getField (JSValue.obj [("message", JSValue.vstr "m")]) "salesData" =
      JSValue.undefined ∧
    JSValue.undefined ≠
      JSValue.arr [JSValue.obj [("product", JSValue.vstr "X")]] := by
  refine ⟨rfl, rfl, ?_⟩
  intro h
  exact JSValue.noConfusion h

/-- C2 (amended): on a successful call the raw result goes through the
resolver, but only the chat send merges under the §4.4 non-destructive
policy (a resolved snapshot lacking a list field leaves the stored value
of that field unchanged); the initial/refresh dashboard fetch instead
replaces the stored snapshot wholesale with the resolved snapshot. -/
theorem C2_success_merge_policy (p : JsonParse) (stringify : JSValue → String)
    (st : DashState) (result parsed : JSValue) (msg : String)
    (now now1 now2 : Nat)
    (hsucc : truthy (getField result "success") = true)
    (hparse : parseAgentResponse p result = some parsed) :
    (fetchDashboardStep p st (.returned result) now).agentData = some parsed ∧
    (sendChatStep p stringify st msg (.returned result) now1 now2).agentData =
      some (mergeSnapshot (st.agentData.getD .vnull) parsed) ∧
    (getField parsed "salesData" = JSValue.undefined →
      getField (mergeSnapshot (st.agentData.getD .vnull) parsed) "salesData" =
        getField (st.agentData.getD .vnull) "salesData") ∧
    (getField parsed "inventoryItems" = JSValue.undefined →
      getField (mergeSnapshot (st.agentData.getD .vnull) parsed)
          "inventoryItems" =
        getField (st.agentData.getD .vnull) "inventoryItems") ∧
    (getField parsed "orders" = JSValue.undefined →
      getField (mergeSnapshot (st.agentData.getD .vnull) parsed) "orders" =
        getField (st.agentData.getD .vnull) "orders") ∧
    (getField parsed "lowStockAlerts" = JSValue.undefined →
      getField (mergeSnapshot (st.agentData.getD .vnull) parsed)
          "lowStockAlerts" =
        getField (st.agentData.getD .vnull) "lowStockAlerts") := by
  refine ⟨?_, ?_, ?_, ?_, ?_, ?_⟩
  · simp [fetchDashboardStep, hsucc, hparse]
  · simp [sendChatStep, hsucc, hparse]
  · intro h
    rw [mergeSnapshot_getField_salesData, h]
    simp [isNonEmptyArray]
  · intro h
    rw [mergeSnapshot_getField_inventoryItems, h]
    simp [isNonEmptyArray]
  · intro h
    rw [mergeSnapshot_getField_orders, h]
    simp [isNonEmptyArray]
  · intro h
    rw [mergeSnapshot_getField_lowStockAlerts, h]
    simp [isNonEmptyArray]

/-- C2 witness: a concrete successful fetch replaces the snapshot
wholesale, while the chat-send merge of the same resolved snapshot keeps
the stored `salesData`. -/
theorem C2_success_merge_policy_witness :
    (fetchDashboardStep noParse
      ⟨some (JSValue.obj [("salesData", JSValue.arr [JSValue.vstr "s"])]),
        [], none⟩
      (.returned (JSValue.obj [("success", JSValue.vbool true),
        ("response", JSValue.obj [("message", JSValue.vstr "m")])]))
      0).agentData =
      some (JSValue.obj [("message", JSValue.vstr "m")]) ∧
    getField
      (mergeSnapshot
        (JSValue.obj [("salesData", JSValue.arr [JSValue.vstr "s"])])
        (JSValue.obj [("message", JSValue.vstr "m")])) "salesData" =
      getField (JSValue.obj [("salesData", JSValue.arr [JSValue.vstr "s"])])
        "salesData" := by
  obtain ⟨h1, _, h3, _, _, _⟩ :=
    C2_success_merge_policy noParse (fun _ => "x")
      ⟨some (JSValue.obj [("salesData", JSValue.arr [JSValue.vstr "s"])]),
        [], none⟩
      (JSValue.obj [("success", JSValue.vbool true),
        ("response", JSValue.obj [("message", JSValue.vstr "m")])])
      (JSValue.obj [("message", JSValue.vstr "m")])
      "hi" 0 1 2 rfl rfl
  exact ⟨h1, h3 rfl⟩

/-- C4: every failure path is fail-static. A transport failure
(`success` falsy or a thrown error) or a resolution miss (resolver returns
`None`) leaves the stored snapshot completely unchanged; the fetch paths
record an error condition, the chat paths append a fallback or error chat
message (the failed fetch also leaves the transcript unchanged); parse
failures surface only as the totally-defined `None`/fallback values of
`parseAgentResponse`/`extractMessageFromResult`, never as an exception. -/
theorem C4_fail_static (p : JsonParse) (stringify : JSValue → String)
    (st : DashState) (result : JSValue) (m msg : String)
    (now now1 now2 : Nat) :
    (truthy (getField result "success") = false →
      (fetchDashboardStep p st (.returned result) now).agentData =
          st.agentData ∧
      (fetchDashboardStep p st (.returned result) now).chatMessages =
          st.chatMessages ∧
      (fetchDashboardStep p st (.returned result) now).error =
          some (nullishOr (getField result "error")
            (.vstr "Agent call failed. Please retry."))) ∧
    ((fetchDashboardStep p st (.threw m) now).agentData = st.agentData ∧
      (fetchDashboardStep p st (.threw m) now).chatMessages =
        st.chatMessages ∧
      (fetchDashboardStep p st (.threw m) now).error = some (.vstr m)) ∧
    (truthy (getField result "success") = true →
      parseAgentResponse p result = none →
      (fetchDashboardStep p st (.returned result) now).agentData =
          st.agentData ∧
      (fetchDashboardStep p st (.returned result) now).chatMessages =
          st.chatMessages ∧
      (fetchDashboardStep p st (.returned result) now).error =
          some (.vstr parseMissAdvisory)) ∧
    (truthy (getField result "success") = false →
      (sendChatStep p stringify st msg (.returned result) now1 now2).agentData =
          st.agentData ∧
      (sendChatStep p stringify st msg (.returned result) now1 now2).chatMessages =
          st.chatMessages ++
            [ChatMsg.mk Role.user (.vstr msg) now1,
             ChatMsg.mk Role.agent
               (nullishOr (getField result "error")
                 (.vstr "Sorry, something went wrong.")) now2]) ∧
    ((sendChatStep p stringify st msg (.threw m) now1 now2).agentData =
        st.agentData ∧
      (sendChatStep p stringify st msg (.threw m) now1 now2).chatMessages =
        st.chatMessages ++
          [ChatMsg.mk Role.user (.vstr msg) now1,
           ChatMsg.mk Role.agent (.vstr m) now2]) ∧
    (truthy (getField result "success") = true →
      parseAgentResponse p result = none →
      (sendChatStep p stringify st msg (.returned result) now1 now2).agentData =
          st.agentData ∧
      (sendChatStep p stringify st msg (.returned result) now1 now2).chatMessages =
          st.chatMessages ++
            [ChatMsg.mk Role.user (.vstr msg) now1,
             ChatMsg.mk Role.agent
               (extractMessageFromResult p stringify result) now2]) := by
  refine ⟨?_, ?_, ?_, ?_, ?_, ?_⟩
  · intro hf
    refine ⟨?_, ?_, ?_⟩ <;> simp [fetchDashboardStep, hf]
  · refine ⟨rfl, rfl, rfl⟩
  · intro hs hn
    refine ⟨?_, ?_, ?_⟩ <;> simp [fetchDashboardStep, hs, hn]
  · intro hf
    refine ⟨?_, ?_⟩ <;> simp [sendChatStep, hf]
  · refine ⟨by simp [sendChatStep], by simp [sendChatStep]⟩
  · intro hs hn
    refine ⟨?_, ?_⟩ <;> simp [sendChatStep, hs, hn]

/-- C4 witness: concrete failing outcomes — a `success:false` envelope, a
thrown error, and a successful but unresolvable envelope — each leave the
stored snapshot intact. -/
theorem C4_fail_static_witness :
    (fetchDashboardStep noParse
      ⟨some (JSValue.obj [("message", JSValue.vstr "keep")]), [], none⟩
      (.returned (JSValue.obj [("success", JSValue.vbool false)]))
      0).agentData =
      some (JSValue.obj [("message", JSValue.vstr "keep")]) ∧
    (fetchDashboardStep noParse
      ⟨some (JSValue.obj [("message", JSValue.vstr "keep")]), [], none⟩
      (.threw "Network error") 0).agentData =
      some (JSValue.obj [("message", JSValue.vstr "keep")]) ∧
    (fetchDashboardStep noParse
      ⟨some (JSValue.obj [("message", JSValue.vstr "keep")]), [], none⟩
      (.returned (JSValue.obj [("success", JSValue.vbool true)]))
      0).agentData =
      some (JSValue.obj [("message", JSValue.vstr "keep")]) ∧
    (sendChatStep noParse (fun _ => "x")
      ⟨some (JSValue.obj [("message", JSValue.vstr "keep")]), [], none⟩
      "hi" (.returned (JSValue.obj [("success", JSValue.vbool true)]))
      1 2).agentData =
      some (JSValue.obj [("message", JSValue.vstr "keep")]) := by
  obtain ⟨h1, h2, h3, _, _, h6⟩ :=
    C4_fail_static noParse (fun _ => "x")
      ⟨some (JSValue.obj [("message", JSValue.vstr "keep")]), [], none⟩
      (JSValue.obj [("success", JSValue.vbool false)])
      "Network error" "hi" 0 1 2
  obtain ⟨h1', _, h3', _, _, h6'⟩ :=
    C4_fail_static noParse (fun _ => "x")
      ⟨some (JSValue.obj [("message", JSValue.vstr "keep")]), [], none⟩
      (JSValue.obj [("success", JSValue.vbool true)])
      "Network error" "hi" 0 1 2
  exact ⟨(h1 rfl).1, h2.1, (h3' rfl rfl).1, (h6' rfl rfl).1⟩

/-- C9 counterexample: a successful dashboard fetch/refresh whose resolved
snapshot carries a truthy `message` **replaces** the chat transcript with
that single agent message (source line 418), so a previously present chat
message is no longer in the transcript — the transcript is not
append-only across all operations. -/
theorem C9_counterexample :
    (fetchDashboardStep noParse
      ⟨none, [ChatMsg.mk Role.user (JSValue.vstr "hi") 1], none⟩
      (.returned (JSValue.obj [("success", JSValue.vbool true),
        ("response", JSValue.obj [("message", JSValue.vstr "m")])]))
      2).chatMessages =
      [ChatMsg.mk Role.agent (JSValue.vstr "m") 2] ∧
    ChatMsg.mk Role.agent (JSValue.vstr "m") 2 ≠
      ChatMsg.mk Role.user (JSValue.vstr "hi") 1 := by
  refine ⟨rfl, ?_⟩
  intro h
  injection h with h1 h2 h3
  exact Role.noConfusion h1

/-- C9 (amended): every chat send only appends to the transcript, and
every fetch failure path (transport failure, thrown error, resolution
miss) and every successful fetch whose resolved snapshot has no truthy
`message` leaves the transcript unchanged; but a successful fetch/refresh
whose resolved snapshot has a truthy `message` resets the transcript to
that single agent message. -/
theorem C9_transcript (p : JsonParse) (stringify : JSValue → String)
    (st : DashState) (msg m : String) (outcome : CallOutcome)
    (result parsed : JSValue) (now now1 now2 : Nat) :
    (∃ tl, (sendChatStep p stringify st msg outcome now1 now2).chatMessages =
      st.chatMessages ++ tl) ∧
    (truthy (getField result "success") = false →
      (fetchDashboardStep p st (.returned result) now).chatMessages =
        st.chatMessages) ∧
    ((fetchDashboardStep p st (.threw m) now).chatMessages =
      st.chatMessages) ∧
    (truthy (getField result "success") = true →
      parseAgentResponse p result = none →
      (fetchDashboardStep p st (.returned result) now).chatMessages =
        st.chatMessages) ∧
    (truthy (getField result "success") = true →
      parseAgentResponse p result = some parsed →
      truthy (getField parsed "message") = false →
      (fetchDashboardStep p st (.returned result) now).chatMessages =
        st.chatMessages) ∧
    (truthy (getField result "success") = true →
      parseAgentResponse p result = some parsed →
      truthy (getField parsed "message") = true →
      (fetchDashboardStep p st (.returned result) now).chatMessages =
        [ChatMsg.mk Role.agent (getField parsed "message") now]) := by
  refine ⟨?_, ?_, ?_, ?_, ?_, ?_⟩
  · cases outcome with
    | returned r =>
      by_cases hs : truthy (getField r "success") = true
      · rcases hpr : parseAgentResponse p r with _ | d
        · refine ⟨[ChatMsg.mk Role.user (.vstr msg) now1,
            ChatMsg.mk Role.agent
              (extractMessageFromResult p stringify r) now2], ?_⟩
          simp [sendChatStep, hs, hpr]
        · refine ⟨[ChatMsg.mk Role.user (.vstr msg) now1,
            ChatMsg.mk Role.agent
              (nullishOr (getField d "message")
                (extractMessageFromResult p stringify r)) now2], ?_⟩
          simp [sendChatStep, hs, hpr]
      · refine ⟨[ChatMsg.mk Role.user (.vstr msg) now1,
          ChatMsg.mk Role.agent
            (nullishOr (getField r "error")
              (.vstr "Sorry, something went wrong.")) now2], ?_⟩
        simp [sendChatStep, hs]
    | threw tm =>
      refine ⟨[ChatMsg.mk Role.user (.vstr msg) now1,
        ChatMsg.mk Role.agent (.vstr tm) now2], ?_⟩
      simp [sendChatStep]
  · intro hf
    simp [fetchDashboardStep, hf]
  · rfl
  · intro hs hn
    simp [fetchDashboardStep, hs, hn]
  · intro hs hp hm
    simp [fetchDashboardStep, hs, hp, hm]
  · intro hs hp hm
    simp [fetchDashboardStep, hs, hp, hm]

/-- C9 witness: a concrete chat send appends exactly the user and agent
messages, and a concrete failed fetch leaves the transcript unchanged. -/
theorem C9_transcript_witness :
    (∃ tl, (sendChatStep noParse (fun _ => "x")
      ⟨none, [ChatMsg.mk Role.user (JSValue.vstr "hi") 1], none⟩
      "more" (.threw "Network error.") 2 3).chatMessages =
      [ChatMsg.mk Role.user (JSValue.vstr "hi") 1] ++ tl) ∧
    (fetchDashboardStep noParse
      ⟨none, [ChatMsg.mk Role.user (JSValue.vstr "hi") 1], none⟩
      (.returned (JSValue.obj [("success", JSValue.vbool false)]))
      2).chatMessages =
      [ChatMsg.mk Role.user (JSValue.vstr "hi") 1] := by
  obtain ⟨h1, h2, _, _, _, _⟩ :=
    C9_transcript noParse (fun _ => "x")
      ⟨none, [ChatMsg.mk Role.user (JSValue.vstr "hi") 1], none⟩
      "more" "Network error." (.threw "Network error.")
      (JSValue.obj [("success", JSValue.vbool false)]) JSValue.vnull 2 2 3
  exact ⟨h1, h2 rfl⟩
